import Mathlib

/-!
Verification of the GENAI_BOT retrieval-augmented-generation core against its
specification.  The Python sources (`rag_engine.py`, `vector_store.py`,
`document_processor.py`, `config.py`) are shallowly embedded: every method
becomes a pure Lean function; the two effectful collaborator calls the engine
makes (similarity search against the store, generative-backend invocation) are
passed in as explicit outcomes (`Except`), so that "the call raised" is a
constructor, not a side effect; machine floats returned as relevance scores are
modelled as integers (only their presence and ordering matter to the claims).
-/

namespace GenaiBot

/-- A langchain `Document`: a text fragment with provenance metadata
(`langchain.schema.Document` as used throughout the sources). -/
structure Document where
  page_content : String
  metadata : List (String × String) := []
deriving Repr, DecidableEq

/-- The dictionary `RAGEngine.query` returns (rag_engine.py lines 100-149).
`relevance_scores = none` models the key being absent from the dictionary;
`error = none` models the key being present with value `None`. -/
structure QueryResult where
  answer : String
  source_documents : List Document
  relevance_scores : Option (List Int) := none
  error : Option String := none
deriving Repr, DecidableEq

/-- The dictionary returned by `qa_chain.invoke` (rag_engine.py lines 128-130):
a `result` string and, optionally, its own `source_documents` list
(`response.get("source_documents", documents)`). -/
structure LLMResponse where
  result : String
  source_documents : Option (List Document) := none
deriving Repr, DecidableEq

/-- The engine's mode, fixed at construction (rag_engine.py lines 36-41,
126-134): generative when `self.qa_chain and self.llm` holds, carrying the
outcome of invoking the chain on a question; extractive otherwise. -/
inductive EngineMode where
  | generative (invoke : String → Except String LLMResponse)
  | extractive

/-- rag_engine.py lines 151-169, `RAGEngine._generate_fallback_answer`:
preamble, then for each document (1-based) the label, the first 300 characters
of its text and an ellipsis, then the footer. -/
def RAGEngine.generate_fallback_answer (documents : List Document) : String :=
  "Based on the knowledge base, here are the most relevant excerpts:\n\n"
    ++ String.join ((documents.enumFrom 1).map
        (fun p => "**Excerpt " ++ toString p.1 ++ ":**\n"
          ++ p.2.page_content.take 300 ++ "...\n\n"))
    ++ "\n*Note: Set up an OpenAI API key in the .env file to get AI-generated answers.*"

/-- rag_engine.py lines 90-149, `RAGEngine.query`.  `retrieve` is the outcome
of `self.vector_store_manager.similarity_search_with_score(question, k)` and
`EngineMode.generative invoke` the outcome of `self.qa_chain.invoke`; an
`Except.error` value means that call raised, and the surrounding `try` turns
it into the error result of lines 143-149.  The second component counts
invocations of the generative backend.  The guard
`not question or not question.strip()` holds exactly when every character of
the question is whitespace (vacuously for the empty string). -/
def RAGEngine.query (mode : EngineMode)
    (retrieve : Except String (List (Document × Int)))
    (question : String) : QueryResult × Nat :=
  if question.data.all Char.isWhitespace then
    ({ answer := "Please provide a valid question.",
       source_documents := [],
       error := some "Empty question" }, 0)
  else
    match retrieve with
    | .error e =>
        ({ answer := "An error occurred while processing your question: " ++ e,
           source_documents := [],
           error := some e }, 0)
    | .ok relevant_docs =>
      if relevant_docs.isEmpty then
        ({ answer := "I couldn't find any relevant information in the knowledge base for your question.",
           source_documents := [],
           error := some "No relevant documents found" }, 0)
      else
        let documents := relevant_docs.map Prod.fst
        let scores := relevant_docs.map Prod.snd
        match mode with
        | .generative invoke =>
          match invoke question with
          | .error e =>
              ({ answer := "An error occurred while processing your question: " ++ e,
                 source_documents := [],
                 error := some e }, 1)
          | .ok response =>
              ({ answer := response.result,
                 source_documents := response.source_documents.getD documents,
                 relevance_scores := some scores,
                 error := none }, 1)
        | .extractive =>
            ({ answer := RAGEngine.generate_fallback_answer documents,
               source_documents := documents,
               relevance_scores := some scores,
               error := none }, 0)

/-- Modelled from the spec: an Embedding Record (§3): a fragment plus its
vector representation, owned by the Embedding Index; ChromaDB itself is an
external collaborator whose sources are not part of this repository. -/
structure EmbeddingRecord where
  doc : Document
  vec : List Int
deriving Repr, DecidableEq

/-- Modelled from the spec: an Index Collection (§3): a named, persisted set
of embedding records. -/
structure Collection where
  records : List EmbeddingRecord
deriving Repr, DecidableEq

/-- The record count of a collection (`collection.count()` in ChromaDB). -/
def Collection.count (c : Collection) : Nat :=
  c.records.length

/-- Modelled from the spec: `Chroma.from_documents` (§3, §4.2): creating a
collection embeds every given fragment's text and persists the records under
the configured collection name, replacing whatever was previously persisted
there (collections are "destroyed/replaced wholesale on rebuild").  `prior`
is the previously persisted content under the same name; creation does not
depend on it. -/
def Chroma.from_documents (embed : String → List Int) (_prior : Option Collection)
    (documents : List Document) : Collection :=
  { records := documents.map fun d => { doc := d, vec := embed d.page_content } }

/-- Sum of squares of a vector's entries. -/
def sumSquares : List Int → Int
  | [] => 0
  | y :: ys => y * y + sumSquares ys

/-- Squared Euclidean distance between two integer vectors (a shorter vector
is padded with zeroes). -/
def sqDist : List Int → List Int → Int
  | [], ys => sumSquares ys
  | x :: xs, [] => x * x + sqDist xs []
  | x :: xs, y :: ys => (x - y) * (x - y) + sqDist xs ys

/-- Insert a scored document into a list sorted by ascending score, keeping
earlier elements first among equal scores (stable). -/
def insertByScore (p : Document × Int) : List (Document × Int) → List (Document × Int)
  | [] => [p]
  | q :: qs => if p.2 < q.2 then p :: q :: qs else q :: insertByScore p qs

/-- Stable sort of scored documents by ascending score (best-first for a
distance metric). -/
def sortByScore : List (Document × Int) → List (Document × Int)
  | [] => []
  | p :: ps => insertByScore p (sortByScore ps)

/-- Modelled from the spec: ChromaDB nearest-neighbour search (§4.2 `search`):
embed the query with the same model, score every record by distance to the
query vector, order best-first, return up to `k`.  Deterministic by
construction, as §4.2's invariant demands of the store. -/
def Collection.search (embed : String → List Int) (c : Collection)
    (query : String) (k : Nat) : List (Document × Int) :=
  sortByScore (c.records.map fun r => (r.doc, sqDist (embed query) r.vec)) |>.take k

/-- vector_store.py lines 19-45: the manager's mutable state; `vectorstore`
is `self.vectorstore` (`None` until a store is created or loaded). -/
structure VectorStoreManager where
  vectorstore : Option Collection := none
deriving Repr, DecidableEq

/-- vector_store.py lines 47-70, `VectorStoreManager.create_vectorstore`:
raises `ValueError` on an empty documents list, otherwise builds the Chroma
collection and stores it on the manager.  `from_documents` is the outcome of
the `Chroma.from_documents` collaborator call (an `Except.error` value means
that call raised, e.g. an embedding failure). -/
def VectorStoreManager.create_vectorstore
    (from_documents : List Document → Except String Collection)
    (vsm : VectorStoreManager) (documents : List Document) :
    Except String VectorStoreManager :=
  if documents.isEmpty then
    .error "Cannot create vector store with empty documents list"
  else
    match from_documents documents with
    | .error e => .error e
    | .ok c => .ok { vsm with vectorstore := some c }

/-- vector_store.py lines 72-98, `VectorStoreManager.load_vectorstore`: the
whole body is wrapped in `try/except Exception` returning `None`.  `attach`
is the outcome of the `Chroma(...)` constructor reattaching to persisted
storage (an `Except.error` value means it raised, e.g. a corrupt store).  The
result type is `Except` so that "the call raised to its caller" is statable;
the function's value records which outcomes actually escape. -/
def VectorStoreManager.load_vectorstore (vsm : VectorStoreManager)
    (attach : Except String Collection) :
    Except String (VectorStoreManager × Option Collection) :=
  match attach with
  | .error _ => .ok (vsm, none)
  | .ok c =>
    if c.count = 0 then .ok ({ vsm with vectorstore := some c }, none)
    else .ok ({ vsm with vectorstore := some c }, some c)

/-- vector_store.py lines 139-159, `VectorStoreManager.similarity_search_with_score`:
empty list when no store is loaded, otherwise the store's search; the
`try/except` around the store call returns an empty list if it raises, so the
manager method itself never raises. -/
def VectorStoreManager.similarity_search_with_score (embed : String → List Int)
    (vsm : VectorStoreManager) (query : String) (k : Nat) :
    List (Document × Int) :=
  match vsm.vectorstore with
  | none => []
  | some c => c.search embed query k

/-- vector_store.py lines 161-166, `VectorStoreManager.delete_collection`. -/
def VectorStoreManager.delete_collection (vsm : VectorStoreManager) :
    VectorStoreManager :=
  { vsm with vectorstore := none }

/-- vector_store.py lines 168-180, `VectorStoreManager.get_collection_count`:
0 when no store is loaded, otherwise the collection's record count. -/
def VectorStoreManager.get_collection_count (vsm : VectorStoreManager) : Nat :=
  match vsm.vectorstore with
  | none => 0
  | some c => c.count

/-- Modelled from the spec: the recursive hierarchical splitter of §4.1
(langchain's `RecursiveCharacterTextSplitter`, an external collaborator whose
sources are not part of this repository): "attempt to split on paragraph
breaks first; if a resulting piece still exceeds the target chunk size,
recursively split that piece using progressively finer separators (line
break, then space, then hard character boundary) until every piece is ≤
chunk_size characters or no separator remains".  A piece that does not exceed
`chunk_size` is kept whole; the empty separator list is the hard character
boundary.  (The overlap merging of §4.1 concerns only pieces produced from
over-size sources and is not modelled.) -/
def split_text (chunk_size : Nat) : List String → String → List String
  | [], text =>
    if text.length ≤ chunk_size then [text]
    else (text.toList.toChunks chunk_size).map List.asString
  | sep :: rest, text =>
    if text.length ≤ chunk_size then [text]
    else (text.splitOn sep).flatMap (split_text chunk_size rest)

/-- document_processor.py lines 38-43: the separator hierarchy handed to the
splitter is `["\n\n", "\n", " ", ""]`; the final `""` is the base case of
`split_text`. -/
def default_separators : List String := ["\n\n", "\n", " "]

/-- document_processor.py lines 24-43: the processor's configuration;
defaults from config.py lines 21-22 (`CHUNK_SIZE = 500`,
`CHUNK_OVERLAP = 50`). -/
structure DocumentProcessor where
  chunk_size : Nat := 500
  chunk_overlap : Nat := 50
deriving Repr, DecidableEq

/-- document_processor.py lines 103-119, `DocumentProcessor.chunk_documents`:
empty input yields an empty list; otherwise each document is split and every
piece becomes a document carrying the source's metadata. -/
def DocumentProcessor.chunk_documents (dp : DocumentProcessor)
    (documents : List Document) : List Document :=
  if documents.isEmpty then []
  else
    documents.flatMap fun d =>
      (split_text dp.chunk_size default_separators d.page_content).map
        fun t => { d with page_content := t }

/-- rag_engine.py lines 187-194: the manager's mutable state.  `rag_engine`
is `self.rag_engine` (`None` until constructed), identified by the engine's
mode, which is all that distinguishes engine instances here; `is_initialized`
is `self.is_initialized`. -/
structure RAGManager where
  vector_store_manager : VectorStoreManager := {}
  rag_engine : Option EngineMode := none
  is_initialized : Bool := false

/-- rag_engine.py lines 196-251, `RAGManager.initialize`.  The collaborator
outcomes are explicit: `chunks` is what `DocumentProcessor.process_documents`
returns, `attach` the outcome of the `Chroma(...)` reattach inside
`load_vectorstore`, `from_documents` the outcome of `Chroma.from_documents`
inside `create_vectorstore`, and `mode` the mode of the engine constructed on
success.  An `Except.error` outcome raises into the method's `try`, which
logs and returns `False`; the `is_initialized` flag is assigned only on the
success path (line 245). -/
def RAGManager.initSystem (mgr : RAGManager) (force_rebuild : Bool)
    (chunks : List Document) (attach : Except String Collection)
    (from_documents : List Document → Except String Collection)
    (mode : EngineMode) : Bool × RAGManager :=
  if force_rebuild then
    if chunks.isEmpty then (false, mgr)
    else
      let vsm := mgr.vector_store_manager.delete_collection
      match vsm.create_vectorstore from_documents chunks with
      | .error _ => (false, { mgr with vector_store_manager := vsm })
      | .ok vsm' =>
          (true, { vector_store_manager := vsm', rag_engine := some mode,
                   is_initialized := true })
  else
    match mgr.vector_store_manager.load_vectorstore attach with
    | .error _ => (false, mgr)
    | .ok (vsm, loaded) =>
      match loaded with
      | some _ =>
          (true, { vector_store_manager := vsm, rag_engine := some mode,
                   is_initialized := true })
      | none =>
        if chunks.isEmpty then (false, { mgr with vector_store_manager := vsm })
        else
          match vsm.create_vectorstore from_documents chunks with
          | .error _ => (false, { mgr with vector_store_manager := vsm })
          | .ok vsm' =>
              (true, { vector_store_manager := vsm', rag_engine := some mode,
                       is_initialized := true })

/-- rag_engine.py lines 253-270, `RAGManager.query`: a fixed "not
initialized" result when the manager is not ready, otherwise delegation to
the engine's `query` (whose collaborator outcome `retrieve` is passed
through). -/
def RAGManager.query (mgr : RAGManager)
    (retrieve : Except String (List (Document × Int)))
    (question : String) : QueryResult × Nat :=
  match mgr.rag_engine with
  | none =>
      ({ answer := "RAG system is not initialized. Please initialize first.",
         source_documents := [],
         error := some "Not initialized" }, 0)
  | some mode =>
    if mgr.is_initialized then RAGEngine.query mode retrieve question
    else
      ({ answer := "RAG system is not initialized. Please initialize first.",
         source_documents := [],
         error := some "Not initialized" }, 0)

/-- C1: for every non-blank question, an exception raised by the retrieval
call is caught and turned into a result with an empty source list and the
exception's message as the error field; and in generative mode, with a
non-empty retrieval, an exception raised by the backend invocation is caught
the same way.  `RAGEngine.query` is a total function, so no exception ever
escapes to its caller. -/
theorem C1_query_catches_exceptions (mode : EngineMode) (question : String)
    (e : String) (hq : question.data.all Char.isWhitespace = false) :
    ((RAGEngine.query mode (.error e) question).1.source_documents = [] ∧
     (RAGEngine.query mode (.error e) question).1.error = some e) ∧
    ∀ (invoke : String → Except String LLMResponse)
      (docs : List (Document × Int)),
      docs ≠ [] → invoke question = .error e →
      ((RAGEngine.query (.generative invoke) (.ok docs) question).1.source_documents = [] ∧
       (RAGEngine.query (.generative invoke) (.ok docs) question).1.error = some e) := by
  constructor
  · simp [RAGEngine.query, hq]
  · intro invoke docs hd hinv
    cases docs with
    | nil => exact absurd rfl hd
    | cons p ps => simp [RAGEngine.query, hq, hinv]

/-- C1 witness: a concrete retrieval failure and a concrete generation
failure, each converted in-band. -/
theorem C1_query_catches_exceptions_witness :
    ((RAGEngine.query EngineMode.extractive (.error "boom") "q").1.source_documents = [] ∧
     (RAGEngine.query EngineMode.extractive (.error "boom") "q").1.error = some "boom") ∧
    ((RAGEngine.query (.generative fun _ => .error "boom")
        (.ok [({ page_content := "t" }, 0)]) "q").1.source_documents = [] ∧
     (RAGEngine.query (.generative fun _ => .error "boom")
        (.ok [({ page_content := "t" }, 0)]) "q").1.error = some "boom") :=
  ⟨(C1_query_catches_exceptions EngineMode.extractive "q" "boom" (by decide)).1,
   (C1_query_catches_exceptions EngineMode.extractive "q" "boom" (by decide)).2
     (fun _ => .error "boom") [({ page_content := "t" }, 0)] (by decide) rfl⟩

/-- C3 counterexample: the claim states the error field equals
"empty question", but the code (rag_engine.py line 104) writes
"Empty question" with a capital E. -/
theorem C3_blank_error_capitalized :
    (RAGEngine.query EngineMode.extractive (.ok []) "").1.error ≠ some "empty question" := by
  decide

/-- C3 (amended): for every blank or whitespace-only question, in either
mode and for every retrieval outcome (the result does not depend on
retrieval, so none is performed), the engine returns the fixed guidance
message with empty sources, error "Empty question", and no backend call. -/
theorem C3_blank_question_result (mode : EngineMode)
    (retrieve : Except String (List (Document × Int))) (question : String)
    (hq : question.data.all Char.isWhitespace = true) :
    RAGEngine.query mode retrieve question =
      ({ answer := "Please provide a valid question.",
         source_documents := [],
         relevance_scores := none,
         error := some "Empty question" }, 0) := by
  simp [RAGEngine.query, hq]

/-- C3 witness: the empty and the whitespace-only question, in extractive
and in generative mode. -/
theorem C3_blank_question_result_witness :
    RAGEngine.query EngineMode.extractive (.ok []) "" =
      ({ answer := "Please provide a valid question.",
         source_documents := [],
         relevance_scores := none,
         error := some "Empty question" }, 0) ∧
    RAGEngine.query (.generative fun _ => .error "x")
        (.ok [({ page_content := "t" }, 0)]) "   " =
      ({ answer := "Please provide a valid question.",
         source_documents := [],
         relevance_scores := none,
         error := some "Empty question" }, 0) :=
  ⟨C3_blank_question_result EngineMode.extractive (.ok []) "" (by decide),
   C3_blank_question_result (.generative fun _ => .error "x")
     (.ok [({ page_content := "t" }, 0)]) "   " (by decide)⟩

/-- C4 counterexample: the claim states the error field equals
"no relevant documents found", but the code (rag_engine.py line 118) writes
"No relevant documents found" with a capital N. -/
theorem C4_no_docs_error_capitalized :
    (RAGEngine.query EngineMode.extractive (.ok []) "q").1.error ≠
      some "no relevant documents found" := by
  decide

/-- C4 (amended): for every non-blank question whose retrieval returns zero
fragments, either mode returns the fixed "nothing relevant found" message
with empty sources and error "No relevant documents found"; this outcome is
distinct from the empty-question result and from every exception result. -/
theorem C4_no_relevant_docs_result (mode : EngineMode) (question : String)
    (hq : question.data.all Char.isWhitespace = false) :
    RAGEngine.query mode (.ok []) question =
      ({ answer := "I couldn't find any relevant information in the knowledge base for your question.",
         source_documents := [],
         relevance_scores := none,
         error := some "No relevant documents found" }, 0) ∧
    ("No relevant documents found" : String) ≠ "Empty question" ∧
    ("I couldn't find any relevant information in the knowledge base for your question." : String) ≠
      "Please provide a valid question." ∧
    ∀ e : String,
      ("I couldn't find any relevant information in the knowledge base for your question." : String) ≠
        "An error occurred while processing your question: " ++ e := by
  refine ⟨by simp [RAGEngine.query, hq], by decide, by decide, ?_⟩
  intro e h
  have hd := congrArg String.data h
  rw [String.data_append] at hd
  have h2 := congrArg (List.take 2) hd
  rw [List.take_append_of_le_length (by decide)] at h2
  exact absurd h2 (by decide)

/-- C4 witness: a concrete non-blank question with an empty retrieval. -/
theorem C4_no_relevant_docs_result_witness :
    RAGEngine.query EngineMode.extractive (.ok []) "q" =
      ({ answer := "I couldn't find any relevant information in the knowledge base for your question.",
         source_documents := [],
         relevance_scores := none,
         error := some "No relevant documents found" }, 0) :=
  (C4_no_relevant_docs_result EngineMode.extractive "q" (by decide)).1

/-- C5: in extractive mode, for every non-blank question whose retrieval
yields fragments, the answer is the fixed preamble, then per fragment in
retrieval order the label "Excerpt i" (1-based) with the first at most 300
characters of its text, then the fixed footer about configuring a generative
backend; the invocation count of the generative backend is 0. -/
theorem C5_extractive_answer (question : String)
    (docs : List (Document × Int))
    (hq : question.data.all Char.isWhitespace = false) (hd : docs ≠ []) :
    RAGEngine.query EngineMode.extractive (.ok docs) question =
      ({ answer :=
          "Based on the knowledge base, here are the most relevant excerpts:\n\n"
            ++ String.join (((docs.map Prod.fst).enumFrom 1).map
                (fun p => "**Excerpt " ++ toString p.1 ++ ":**\n"
                  ++ p.2.page_content.take 300 ++ "...\n\n"))
            ++ "\n*Note: Set up an OpenAI API key in the .env file to get AI-generated answers.*",
         source_documents := docs.map Prod.fst,
         relevance_scores := some (docs.map Prod.snd),
         error := none }, 0) := by
  cases docs with
  | nil => exact absurd rfl hd
  | cons p ps =>
      simp [RAGEngine.query, RAGEngine.generate_fallback_answer, hq]

/-- Two concrete scored fragments, the second longer than 300 characters. -/
def sampleScoredDocs : List (Document × Int) :=
  [({ page_content := "hello world" }, 2),
   ({ page_content := String.join (List.replicate 2000 "a") }, 5)]

/-- C5 witness: two concrete fragments, one longer than 300 characters
(2000 copies of "a" are truncated to 300). -/
theorem C5_extractive_answer_witness :
    RAGEngine.query EngineMode.extractive (.ok sampleScoredDocs) "q" =
      ({ answer :=
          "Based on the knowledge base, here are the most relevant excerpts:\n\n"
            ++ String.join (((sampleScoredDocs.map Prod.fst).enumFrom 1).map
                (fun p => "**Excerpt " ++ toString p.1 ++ ":**\n"
                  ++ p.2.page_content.take 300 ++ "...\n\n"))
            ++ "\n*Note: Set up an OpenAI API key in the .env file to get AI-generated answers.*",
         source_documents := sampleScoredDocs.map Prod.fst,
         relevance_scores := some (sampleScoredDocs.map Prod.snd),
         error := none }, 0) :=
  C5_extractive_answer "q" sampleScoredDocs (by decide)
    (List.cons_ne_nil _ _)

/-- C9: the result of the engine's answer operation carries a
relevance-scores field exactly when the question is non-blank, retrieval
succeeded with at least one fragment, and (in generative mode) the backend
invocation succeeded; the empty-question, no-relevant-documents and
exception results all leave the field absent. -/
theorem C9_scores_present_iff (mode : EngineMode)
    (retrieve : Except String (List (Document × Int))) (question : String) :
    (RAGEngine.query mode retrieve question).1.relevance_scores.isSome = true ↔
      (question.data.all Char.isWhitespace = false ∧
       ∃ docs, retrieve = Except.ok docs ∧ docs ≠ [] ∧
         (mode = EngineMode.extractive ∨
          ∃ f r, mode = EngineMode.generative f ∧ f question = Except.ok r)) := by
  by_cases hq : question.data.all Char.isWhitespace
  · simp [RAGEngine.query, hq]
  · rw [Bool.not_eq_true] at hq
    cases retrieve with
    | error e => simp [RAGEngine.query, hq]
    | ok docs =>
      cases docs with
      | nil => simp [RAGEngine.query, hq]
      | cons p ps =>
        cases mode with
        | extractive =>
            simp [RAGEngine.query, hq]
        | generative invoke =>
            cases hinv : invoke question with
            | error e =>
                constructor
                · intro h
                  simp [RAGEngine.query, hq, hinv] at h
                · rintro ⟨-, docs', -, -, hmode | ⟨f, r, hf, hr⟩⟩
                  · exact EngineMode.noConfusion hmode
                  · injection hf with hf'
                    subst hf'
                    rw [hinv] at hr
                    exact Except.noConfusion hr
            | ok response =>
                constructor
                · intro _
                  exact ⟨hq, p :: ps, rfl, by simp,
                    Or.inr ⟨invoke, response, rfl, hinv⟩⟩
                · intro _
                  simp [RAGEngine.query, hq, hinv]

/-- C2 counterexample: the claim states that an error thrown by the
underlying storage propagates to the caller of loadCollection; but
vector_store.py wraps the whole body in `try/except Exception` (lines
79-98), so a corrupt-store error is caught and converted to the absent
result.  At the concrete outcome "corrupt store", the call returns
`Except.ok` with an absent collection, not the propagated error. -/
theorem C2_corrupt_store_error_is_caught :
    VectorStoreManager.load_vectorstore {} (.error "corrupt store") =
        .ok ({}, none) ∧
      VectorStoreManager.load_vectorstore {} (.error "corrupt store") ≠
        .error "corrupt store" := by
  constructor
  · rfl
  · simp [VectorStoreManager.load_vectorstore]

/-- C2 (amended): loadCollection returns "absent" (not an error) when no
matching collection exists (the reattach yields an empty collection) or the
collection has zero records; and when the underlying storage raises an
error, that error too is caught and converted to an absent result — the
call never lets a storage error escape to its caller. -/
theorem C2_load_vectorstore_absorbs_errors (vsm : VectorStoreManager)
    (attach : Except String Collection) :
    (∀ e, attach = .error e →
      vsm.load_vectorstore attach = .ok (vsm, none)) ∧
    (∀ c, attach = .ok c → c.count = 0 →
      vsm.load_vectorstore attach = .ok ({ vectorstore := some c }, none)) ∧
    (∀ c, attach = .ok c → c.count ≠ 0 →
      vsm.load_vectorstore attach = .ok ({ vectorstore := some c }, some c)) ∧
    ∃ r, vsm.load_vectorstore attach = .ok r := by
  refine ⟨?_, ?_, ?_, ?_⟩
  · rintro e rfl; rfl
  · rintro c rfl h
    simp [VectorStoreManager.load_vectorstore, h]
  · rintro c rfl h
    simp [VectorStoreManager.load_vectorstore, h]
  · cases attach with
    | error e => exact ⟨(vsm, none), rfl⟩
    | ok c =>
      by_cases h : c.count = 0
      · exact ⟨({ vectorstore := some c }, none),
          by simp [VectorStoreManager.load_vectorstore, h]⟩
      · exact ⟨({ vectorstore := some c }, some c),
          by simp [VectorStoreManager.load_vectorstore, h]⟩

/-- C2 witness: a zero-record collection loads as absent, and a corrupt
store also yields absent rather than an escaping error. -/
theorem C2_load_vectorstore_absorbs_errors_witness :
    VectorStoreManager.load_vectorstore {} (.ok { records := [] }) =
        .ok ({ vectorstore := some { records := [] } }, none) ∧
      VectorStoreManager.load_vectorstore { vectorstore := none }
          (.error "corrupt") = .ok ({ vectorstore := none }, none) :=
  ⟨(C2_load_vectorstore_absorbs_errors {} (.ok { records := [] })).2.1
      { records := [] } rfl rfl,
   (C2_load_vectorstore_absorbs_errors { vectorstore := none }
      (.error "corrupt")).1 "corrupt" rfl⟩

/-- C6: creating a collection from a non-empty fragment list and then
counting yields exactly the list's length, for every previously persisted
content under the collection name; creating from an empty list fails with
the empty-input error instead of producing a manager holding a collection. -/
theorem C6_create_then_count (embed : String → List Int)
    (prior : Option Collection) (vsm : VectorStoreManager)
    (F : List Document) :
    (F ≠ [] →
      ∃ vsm', vsm.create_vectorstore
          (fun ds => .ok (Chroma.from_documents embed prior ds)) F = .ok vsm' ∧
        vsm'.get_collection_count = F.length) ∧
    (F = [] →
      vsm.create_vectorstore
          (fun ds => .ok (Chroma.from_documents embed prior ds)) F =
        .error "Cannot create vector store with empty documents list") := by
  constructor
  · intro h
    refine ⟨{ vectorstore := some (Chroma.from_documents embed prior F) }, ?_, ?_⟩
    · simp [VectorStoreManager.create_vectorstore, h]
    · simp [VectorStoreManager.get_collection_count, Collection.count,
        Chroma.from_documents]
  · rintro rfl
    rfl

/-- C6 witness: two concrete fragments against a previously persisted
single-record collection still count 2, and the empty list fails. -/
theorem C6_create_then_count_witness :
    ((∃ vsm', VectorStoreManager.create_vectorstore
        (fun ds => .ok (Chroma.from_documents (fun s => [Int.ofNat s.length])
          (some { records := [{ doc := { page_content := "old" }, vec := [9] }] }) ds))
        {} [{ page_content := "a" }, { page_content := "bb" }] = .ok vsm' ∧
      vsm'.get_collection_count = 2) ∧
     VectorStoreManager.create_vectorstore
        (fun ds => .ok (Chroma.from_documents (fun s => [Int.ofNat s.length])
          (some { records := [{ doc := { page_content := "old" }, vec := [9] }] }) ds))
        {} [] = .error "Cannot create vector store with empty documents list") :=
  ⟨(C6_create_then_count (fun s => [Int.ofNat s.length])
      (some { records := [{ doc := { page_content := "old" }, vec := [9] }] })
      {} [{ page_content := "a" }, { page_content := "bb" }]).1
      (List.cons_ne_nil _ _),
   (C6_create_then_count (fun s => [Int.ofNat s.length])
      (some { records := [{ doc := { page_content := "old" }, vec := [9] }] })
      {} []).2 rfl⟩

/-- C7: for a fixed embedding model and manager (collection) state, the
similarity search is a deterministic function of the query string and k:
identical inputs yield identical ordered (fragment, score) sequences. -/
theorem C7_search_deterministic (embed : String → List Int)
    (vsm : VectorStoreManager) (q₁ q₂ : String) (k₁ k₂ : Nat)
    (hq : q₁ = q₂) (hk : k₁ = k₂) :
    vsm.similarity_search_with_score embed q₁ k₁ =
      vsm.similarity_search_with_score embed q₂ k₂ := by
  rw [hq, hk]

/-- C7 witness: two identical invocations against a concrete two-record
collection agree, and both evaluate to the concrete best-first ranking. -/
theorem C7_search_deterministic_witness :
    VectorStoreManager.similarity_search_with_score (fun s => [Int.ofNat s.length])
        { vectorstore := some { records :=
            [{ doc := { page_content := "long fragment" }, vec := [9] },
             { doc := { page_content := "short" }, vec := [2] }] } } "abc" 3 =
      VectorStoreManager.similarity_search_with_score (fun s => [Int.ofNat s.length])
        { vectorstore := some { records :=
            [{ doc := { page_content := "long fragment" }, vec := [9] },
             { doc := { page_content := "short" }, vec := [2] }] } } "abc" 3 ∧
    VectorStoreManager.similarity_search_with_score (fun s => [Int.ofNat s.length])
        { vectorstore := some { records :=
            [{ doc := { page_content := "long fragment" }, vec := [9] },
             { doc := { page_content := "short" }, vec := [2] }] } } "abc" 3 =
      [({ page_content := "short" }, 1), ({ page_content := "long fragment" }, 36)] :=
  ⟨C7_search_deterministic (fun s => [Int.ofNat s.length])
      { vectorstore := some { records :=
          [{ doc := { page_content := "long fragment" }, vec := [9] },
           { doc := { page_content := "short" }, vec := [2] }] } } "abc" "abc" 3 3
      rfl rfl,
   by decide⟩

/-- C8: a source document whose raw text is shorter than the configured
chunk size is emitted by the chunking pipeline as exactly one fragment whose
text equals the source text (metadata included). -/
theorem C8_short_source_single_fragment (dp : DocumentProcessor)
    (d : Document) (h : d.page_content.length < dp.chunk_size) :
    dp.chunk_documents [d] = [d] := by
  simp [DocumentProcessor.chunk_documents, default_separators, split_text,
    Nat.le_of_lt h]

/-- C8 witness: a ten-character source with the default 500-character chunk
size comes back as the single identical fragment. -/
theorem C8_short_source_single_fragment_witness :
    DocumentProcessor.chunk_documents {}
        [{ page_content := "short text", metadata := [("source", "a.txt")] }] =
      [{ page_content := "short text", metadata := [("source", "a.txt")] }] :=
  C8_short_source_single_fragment {}
    { page_content := "short text", metadata := [("source", "a.txt")] }
    (by decide)

/-- C10: whenever the manager's initialization returns false, the
`is_initialized` flag has the value it had before the call (it is assigned,
to true, only on the success path); in particular a Ready manager whose
forced rebuild fails still reports Ready, keeps its engine, and `query`
still delegates to that engine. -/
theorem C10_failed_init_preserves_state (mgr : RAGManager) (force : Bool)
    (chunks : List Document) (attach : Except String Collection)
    (fd : List Document → Except String Collection) (mode : EngineMode) :
    ((mgr.initSystem force chunks attach fd mode).1 = false →
      (mgr.initSystem force chunks attach fd mode).2.is_initialized = mgr.is_initialized ∧
      (mgr.initSystem force chunks attach fd mode).2.rag_engine = mgr.rag_engine) ∧
    (mgr.is_initialized = true →
      (mgr.initSystem force chunks attach fd mode).1 = false →
      ∀ m, mgr.rag_engine = some m →
        (mgr.initSystem force chunks attach fd mode).2.is_initialized = true ∧
        ∀ retrieve question,
          (mgr.initSystem force chunks attach fd mode).2.query retrieve question =
            RAGEngine.query m retrieve question) := by
  have main : (mgr.initSystem force chunks attach fd mode).1 = false →
      (mgr.initSystem force chunks attach fd mode).2.is_initialized = mgr.is_initialized ∧
      (mgr.initSystem force chunks attach fd mode).2.rag_engine = mgr.rag_engine := by
    unfold RAGManager.initSystem
    split
    · split
      · simp
      · cases hc : VectorStoreManager.create_vectorstore fd
            mgr.vector_store_manager.delete_collection chunks with
        | error e => simp [hc]
        | ok vsm' => simp [hc]
    · cases hl : mgr.vector_store_manager.load_vectorstore attach with
      | error e => simp [hl]
      | ok pr =>
        obtain ⟨vsm, loaded⟩ := pr
        cases loaded with
        | some c => simp [hl]
        | none =>
          simp only [hl]
          split
          · simp
          · cases hc : VectorStoreManager.create_vectorstore fd vsm chunks with
            | error e => simp [hc]
            | ok vsm' => simp [hc]
  refine ⟨main, ?_⟩
  intro hinit hfail m hm
  obtain ⟨h1, h2⟩ := main hfail
  refine ⟨h1.trans hinit, ?_⟩
  intro retrieve question
  simp only [RAGManager.query, h2.trans hm, h1.trans hinit, if_true]

/-- A concrete manager in the Ready state, bound to a one-record store and
an extractive engine. -/
def readyManager : RAGManager :=
  { vector_store_manager :=
      { vectorstore := some { records := [{ doc := { page_content := "t" }, vec := [1] }] } },
    rag_engine := some EngineMode.extractive,
    is_initialized := true }

/-- C10 witness: a Ready manager whose forced rebuild fails (no documents to
process) still reports Ready and its query still delegates to the engine. -/
theorem C10_failed_init_preserves_state_witness :
    (readyManager.initSystem true [] (.error "x") (fun _ => .error "embedding failed")
        EngineMode.extractive).2.is_initialized = true ∧
    (readyManager.initSystem true [] (.error "x") (fun _ => .error "embedding failed")
        EngineMode.extractive).2.query (.ok []) "hi" =
      RAGEngine.query EngineMode.extractive (.ok []) "hi" := by
  have h := (C10_failed_init_preserves_state readyManager true [] (.error "x")
      (fun _ => .error "embedding failed") EngineMode.extractive).2 rfl rfl
      EngineMode.extractive rfl
  exact ⟨h.1, h.2 (.ok []) "hi"⟩

end GenaiBot
